import Mathlib

/-!
# Transport-setup listener (`pkg/transport/setup/visor.go`)

A shallow embedding of `NewTransportListener` and `TransportListener.Serve`.

The Go code is effectful: it logs, calls into the dmsg client, spawns
goroutines and talks to `net/rpc`.  The embedding makes those effects explicit:

* every call the code makes to a collaborator is recorded, in program order,
  as an `Event`;
* everything a collaborator hands back (the result of `Listen`, the successive
  results of `AcceptStream`, the result of `Register`, which case of the
  `select` fires) is an input, collected in `Env` or passed as an argument;
* Go pointers are `Option` values (`none` is `nil`); calling a method that
  reads its receiver through a `nil` pointer is a run-time panic.
-/

namespace Setup

/-! ## Data model -/

/-- Public key `cipher.PubKey`: a fixed-size byte array, used only through `==`.
It is encoded as the number its bytes spell. -/
abbrev PubKey := Nat

/-- Secret key `cipher.SecKey`, encoded like `PubKey`. -/
abbrev SecKey := Nat

/-- A Go `error` value that is not `nil`, identified by its message. -/
abbrev GoError := String

/-- The transport manager `transport.Manager`, seen here only as a reference. -/
structure Manager where
  ref : Nat
deriving DecidableEq, Repr

/-- The value `dmsg.Config` built at line 30. -/
structure DmsgConfig where
  MinSessions : Int
deriving DecidableEq, Repr

/-- The client `dmsg.Client` as built by `dmsg.NewClient(pk, sk, discovery, conf)`;
the discovery client `disc.NewHTTP(addr)` is identified by its address. -/
structure Client where
  pk : PubKey
  sk : SecKey
  discovery : String
  conf : DmsgConfig
deriving DecidableEq, Repr

/-- The fields of `visorconfig.V1` that `NewTransportListener` reads:
`conf.PK`, `conf.SK`, `conf.Dmsg.Discovery`, `conf.Dmsg.SessionsCount` and
`conf.Transport.TransportSetup`. -/
structure V1 where
  PK : PubKey
  SK : SecKey
  DmsgDiscovery : String
  DmsgSessionsCount : Int
  TransportSetup : List PubKey
deriving DecidableEq, Repr

/-- The struct `TransportListener` (lines 19-24); `log` is the logger's name. -/
structure TransportListener where
  dmsgC : Client
  log : String
  tm : Manager
  tsNodes : List PubKey
deriving DecidableEq, Repr

/-- The value `&TransportGateway{ts.tm}` of line 84: a wrapper of the manager. -/
structure TransportGateway where
  tm : Manager
deriving DecidableEq, Repr

/-- A dmsg stream behind a non-nil `*dmsg.Stream`: its identity, the public key
`RawRemoteAddr().PK` reports, and what `Close()` returns on it. -/
structure Stream where
  id : Nat
  remotePK : PubKey
  closeErr : Option GoError
deriving DecidableEq, Repr

/-- A listener behind a non-nil `*dmsg.Listener`. -/
structure Listener where
  port : Nat
deriving DecidableEq, Repr

/-- An `rpc.Server`: `id` tells the instances returned by successive
`rpc.NewServer()` calls apart, `handlers` are the receivers registered on it. -/
structure RpcServer where
  id : Nat
  handlers : List TransportGateway
deriving DecidableEq, Repr

/-- One return of `lis.AcceptStream()`: the pair `(conn, err)`. -/
structure AcceptResult where
  conn : Option Stream
  err : Option GoError
deriving DecidableEq, Repr

/-- Severity of a log line. -/
inductive Level where
  | info
  | warn
  | error
deriving DecidableEq, Repr

/-- The calls the code makes to its collaborators, in program order. -/
inductive Event where
  /-- A log line `ts.log....Info/Warn/Error(msg)`, with the `WithError` value. -/
  | log (lvl : Level) (msg : String) (err : Option GoError)
  /-- The statement `go dmsgC.Serve(ctx)`. -/
  | goClientServe (c : Client)
  /-- The call `ts.dmsgC.Listen(port)`. -/
  | listen (port : Nat)
  /-- The goroutine of lines 57-62, which closes `lis` once `ctx` is done. -/
  | goCloseOnCancel (lis : Option Listener)
  /-- The call `lis.AcceptStream()`. -/
  | acceptStream (lis : Option Listener)
  /-- The call `conn.RawRemoteAddr()`. -/
  | rawRemoteAddr (conn : Option Stream)
  /-- The call `conn.Close()`. -/
  | connClose (conn : Option Stream)
  /-- The call `rpc.NewServer()`, returning the instance `id`. -/
  | newServer (id : Nat)
  /-- The call `rpcS.Register(gw)` on instance `srv`. -/
  | register (srv : Nat) (gw : TransportGateway)
  /-- The statement `go rpcS.ServeConn(conn)`; `srv` is the server as it is then. -/
  | goServeConn (srv : RpcServer) (conn : Option Stream)
deriving DecidableEq, Repr

/-- How a run of `Serve` stands when the recorded events end. -/
inductive Outcome where
  /-- The function returned to its caller. -/
  | returned
  /-- A nil pointer was dereferenced: the goroutine panicked. -/
  | panicked
  /-- The code waits inside `lis.AcceptStream()` for the next result. -/
  | blocked
deriving DecidableEq, Repr

/-- What the collaborators of `Serve` answer.
`dmsgPort` is the constant `skyenv.DmsgTransportSetupPort`; `listenRes` is the
pair `ts.dmsgC.Listen` returns; `accepts` are the successive returns of
`lis.AcceptStream()`; `registerErr` is what `rpcS.Register(gw)` returns for a
`*TransportGateway` on a fresh server (`none` is a `nil` error); that result is
fixed by the method set of `TransportGateway`, which is declared outside
`visor.go`. -/
structure Env where
  dmsgPort : Nat
  listenRes : Option Listener × Option GoError
  accepts : List AcceptResult
  registerErr : Option GoError
deriving Repr

/-! ## `NewTransportListener` -/

/-- The two cases of the `select` of lines 34-46. -/
inductive SelectCase where
  | ready
  | done
deriving DecidableEq, Repr

/-- Go's `select` over `dmsgC.Ready()` and `ctx.Done()`.
`readyAt` and `doneAt` are the moments each channel becomes receivable, counted
from the moment the `select` starts (`0`: receivable already, `none`: never).
The case that becomes receivable first is taken; when both do at the same
moment the runtime chooses, which is the input `tie`; when neither ever does
the statement blocks for good (`none`). -/
def selectFirst (readyAt doneAt : Option Nat) (tie : SelectCase) : Option SelectCase :=
  match readyAt, doneAt with
  | none, none => none
  | some _, none => some SelectCase.ready
  | none, some _ => some SelectCase.done
  | some r, some d =>
    if r < d then some SelectCase.ready
    else if d < r then some SelectCase.done
    else some tie

/-- What a call of `NewTransportListener` does: the events up to the point it
returns or blocks, and the returned pair `(*TransportListener, error)`
(`ret = none`: the call never returns). -/
structure NewResult where
  events : List Event
  ret : Option (Option TransportListener × Option GoError)
deriving DecidableEq, Repr

/-- The function `NewTransportListener` (lines 27-47). -/
def NewTransportListener (conf : V1) (tm : Manager)
    (readyAt doneAt : Option Nat) (tie : SelectCase) : NewResult :=
  let log := "transport_setup"
  let discovery := conf.DmsgDiscovery
  let dmsgConf : DmsgConfig := { MinSessions := conf.DmsgSessionsCount }
  let dmsgC : Client := { pk := conf.PK, sk := conf.SK, discovery := discovery, conf := dmsgConf }
  let pre := [Event.goClientServe dmsgC,
              Event.log Level.info "Connecting to the dmsg network." none]
  match selectFirst readyAt doneAt tie with
  | none => { events := pre, ret := none }
  | some SelectCase.ready =>
    let tl : TransportListener :=
      { dmsgC := dmsgC, log := log, tm := tm, tsNodes := conf.TransportSetup }
    { events := pre ++ [Event.log Level.info "Connected!" none],
      ret := some (some tl, none) }
  | some SelectCase.done =>
    { events := pre, ret := some (none, some "failed to connect to dmsg network") }

/-! ## `TransportListener.Serve` -/

/-- The trust check of lines 71-77: `found := false`, then a scan of
`ts.tsNodes` that sets `found = true` and breaks at the first entry equal to
`remotePK`. -/
def found (tsNodes : List PubKey) (remotePK : PubKey) : Bool :=
  match tsNodes with
  | [] => false
  | trusted :: rest => if trusted = remotePK then true else found rest remotePK

/-- One pass through the loop body after `AcceptStream` has returned `r`
(lines 67-90): the events of the pass and whether it panicked. -/
structure Step where
  events : List Event
  panicked : Bool
deriving DecidableEq, Repr

/-- Lines 67-90 for the accept result `r`; `sid` is the identity the next
`rpc.NewServer()` returns.  Nothing in the body skips a later statement: the
three `if` blocks only log (and close), and the statements after them run in
every pass.  `conn.RawRemoteAddr()` reads the stream behind `conn`, so with a
nil `conn` line 70 panics and the pass stops there. -/
def loopBody (ts : TransportListener) (registerErr : Option GoError) (sid : Nat)
    (r : AcceptResult) : Step :=
  -- lines 67-69: the error is logged, nothing else
  let evErr : List Event :=
    match r.err with
    | some e => [Event.log Level.error "failed to accept" (some e)]
    | none => []
  -- line 70
  match r.conn with
  | none => { events := evErr ++ [Event.rawRemoteAddr none], panicked := true }
  | some c =>
    let remotePK := c.remotePK
    -- lines 78-83
    let evClose : List Event :=
      if found ts.tsNodes remotePK then []
      else
        [Event.log Level.info "Closing connection" none, Event.connClose (some c)] ++
          (match c.closeErr with
           | some e => [Event.log Level.error "Failed to close stream" (some e)]
           | none => [])
    -- lines 84-88
    let gw : TransportGateway := { tm := ts.tm }
    let rpcS : RpcServer :=
      match registerErr with
      | some _ => { id := sid, handlers := [] }
      | none => { id := sid, handlers := [gw] }
    let evReg : List Event :=
      match registerErr with
      | some e => [Event.register sid gw, Event.log Level.error "failed to register rpc" (some e)]
      | none => [Event.register sid gw]
    -- lines 89-90
    { events := evErr ++ [Event.rawRemoteAddr (some c)] ++ evClose ++ [Event.newServer sid] ++
        evReg ++ [Event.log Level.info "Serving rpc" none, Event.goServeConn rpcS (some c)],
      panicked := false }

/-- The loop of lines 65-91 run against the successive accept results; `sid`
counts the servers created so far.  The loop has no `break` and no `return`:
a run ends only by a panic, or it waits in `AcceptStream` once the recorded
results are used up.  `lis.AcceptStream()` reads the listener behind `lis`, so
with a nil `lis` the first call panics. -/
def acceptLoop (ts : TransportListener) (registerErr : Option GoError)
    (lis : Option Listener) (sid : Nat) (script : List AcceptResult) :
    List Event × Outcome :=
  match lis with
  | none => ([Event.acceptStream none], Outcome.panicked)
  | some l =>
    match script with
    | [] => ([Event.acceptStream (some l)], Outcome.blocked)
    | r :: rest =>
      let step := loopBody ts registerErr sid r
      if step.panicked then
        (Event.acceptStream (some l) :: step.events, Outcome.panicked)
      else
        let tail := acceptLoop ts registerErr (some l) (sid + 1) rest
        (Event.acceptStream (some l) :: step.events ++ tail.1, tail.2)

/-- What a run of `Serve` did. -/
structure ServeResult where
  events : List Event
  outcome : Outcome
deriving DecidableEq, Repr

/-- The method `TransportListener.Serve` (lines 50-92). -/
def Serve (ts : TransportListener) (env : Env) : ServeResult :=
  let lis := env.listenRes.1
  let evListen : List Event :=
    match env.listenRes.2 with
    | some e => [Event.log Level.error "failed to listen" (some e)]
    | none => []
  let loop := acceptLoop ts env.registerErr lis 0 env.accepts
  { events :=
      [Event.log Level.info "starting listener" none, Event.listen env.dmsgPort] ++ evListen ++
        [Event.goCloseOnCancel lis, Event.log Level.info "Accepting dmsg streams." none] ++
        loop.1,
    outcome := loop.2 }

/-! ## Observations on an event trace -/

/-- The `(server, connection)` pairs of the `go rpcS.ServeConn(conn)` statements. -/
def spawned : List Event → List (RpcServer × Option Stream)
  | [] => []
  | Event.goServeConn srv conn :: rest => (srv, conn) :: spawned rest
  | _ :: rest => spawned rest

/-- The instances returned by the `rpc.NewServer()` calls. -/
def serversCreated : List Event → List Nat
  | [] => []
  | Event.newServer id :: rest => id :: serversCreated rest
  | _ :: rest => serversCreated rest

/-- The `rpcS.Register(gw)` calls: instance and receiver. -/
def registrations : List Event → List (Nat × TransportGateway)
  | [] => []
  | Event.register srv gw :: rest => (srv, gw) :: registrations rest
  | _ :: rest => registrations rest

/-- The connections `conn.Close()` was called on. -/
def closed : List Event → List (Option Stream)
  | [] => []
  | Event.connClose conn :: rest => conn :: closed rest
  | _ :: rest => closed rest

/-! ## Helper lemmas -/

theorem found_eq_true_iff_mem (L : List PubKey) (p : PubKey) :
    found L p = true ↔ p ∈ L := by
  induction L with
  | nil => simp [found]
  | cons a rest ih =>
    unfold found
    by_cases h : a = p
    · simp [h]
    · have h2 : ¬ p = a := fun e => h e.symm
      simp [h, h2, ih]

theorem found_congr_mem (L L2 : List PubKey) (p : PubKey)
    (h : ∀ x, x ∈ L2 ↔ x ∈ L) : found L2 p = found L p := by
  have h1 := found_eq_true_iff_mem L p
  have h2 := found_eq_true_iff_mem L2 p
  have h3 := h p
  cases hL : found L p <;> cases hL2 : found L2 p <;> simp_all

theorem spawned_append (a b : List Event) : spawned (a ++ b) = spawned a ++ spawned b := by
  induction a with
  | nil => rfl
  | cons e rest ih => cases e <;> simp [spawned, ih]

theorem serversCreated_append (a b : List Event) :
    serversCreated (a ++ b) = serversCreated a ++ serversCreated b := by
  induction a with
  | nil => rfl
  | cons e rest ih => cases e <;> simp [serversCreated, ih]

theorem registrations_append (a b : List Event) :
    registrations (a ++ b) = registrations a ++ registrations b := by
  induction a with
  | nil => rfl
  | cons e rest ih => cases e <;> simp [registrations, ih]

theorem closed_append (a b : List Event) : closed (a ++ b) = closed a ++ closed b := by
  induction a with
  | nil => rfl
  | cons e rest ih => cases e <;> simp [closed, ih]

/-- The events of one pass for a connection accepted without error from a
trusted peer. -/
theorem loopBody_trusted (ts : TransportListener) (reg : Option GoError) (sid : Nat)
    (c : Stream) (h : found ts.tsNodes c.remotePK = true) :
    loopBody ts reg sid { conn := some c, err := none } =
      { events := [Event.rawRemoteAddr (some c), Event.newServer sid] ++
          (match reg with
           | some e => [Event.register sid { tm := ts.tm },
                        Event.log Level.error "failed to register rpc" (some e)]
           | none => [Event.register sid { tm := ts.tm }]) ++
          [Event.log Level.info "Serving rpc" none,
           Event.goServeConn
             { id := sid, handlers := if reg = none then [{ tm := ts.tm }] else [] } (some c)],
        panicked := false } := by
  cases reg <;> simp [loopBody, h]

/-- The loop on connections that are all accepted without error from trusted
peers, started with `sid` servers already created. -/
theorem acceptLoop_trusted (ts : TransportListener) (reg : Option GoError) (l : Listener) :
    ∀ (conns : List Stream) (sid : Nat),
      (∀ c ∈ conns, found ts.tsNodes c.remotePK = true) →
      spawned (acceptLoop ts reg (some l) sid
          (conns.map fun c => { conn := some c, err := none })).1 =
        (conns.enumFrom sid).map (fun ic =>
          ({ id := ic.1, handlers := if reg = none then [{ tm := ts.tm }] else [] },
           some ic.2)) ∧
      serversCreated (acceptLoop ts reg (some l) sid
          (conns.map fun c => { conn := some c, err := none })).1 =
        List.range' sid conns.length ∧
      registrations (acceptLoop ts reg (some l) sid
          (conns.map fun c => { conn := some c, err := none })).1 =
        (List.range' sid conns.length).map (fun i => (i, { tm := ts.tm })) ∧
      closed (acceptLoop ts reg (some l) sid
          (conns.map fun c => { conn := some c, err := none })).1 = [] ∧
      (acceptLoop ts reg (some l) sid
          (conns.map fun c => { conn := some c, err := none })).2 = Outcome.blocked := by
  intro conns
  induction conns with
  | nil =>
    intro sid _
    simp [acceptLoop, spawned, serversCreated, registrations, closed]
  | cons c rest ih =>
    intro sid h
    have hc : found ts.tsNodes c.remotePK = true := h c (List.mem_cons_self _ _)
    have hrest : ∀ x ∈ rest, found ts.tsNodes x.remotePK = true :=
      fun x hx => h x (List.mem_cons_of_mem _ hx)
    obtain ⟨i1, i2, i3, i4, i5⟩ := ih (sid + 1) hrest
    have hb := loopBody_trusted ts reg sid c hc
    simp only [List.map_cons, acceptLoop, hb]
    cases reg <;>
      simp [spawned, serversCreated, registrations, closed, spawned_append,
        serversCreated_append, registrations_append, closed_append, i1, i2, i3, i4, i5,
        List.enumFrom, List.range']

/-! ## The trust check -/

/-- C3: the trust check is an order-independent existence check.  For every
trust list `L` and identity `p`, `found` is true exactly when some element of
`L` equals `p`; hence it has the same value on every permutation of `L`, on
every list with the same members as `L`, after adding a copy of an entry, after
removing one copy of an entry that occurs more than once, and after removing
all duplicates. -/
theorem found_is_existence_check (L : List PubKey) (p : PubKey) :
    (found L p = true ↔ ∃ x ∈ L, x = p) ∧
    (∀ L2 : List PubKey, L.Perm L2 → found L2 p = found L p) ∧
    (∀ L2 : List PubKey, (∀ x, x ∈ L2 ↔ x ∈ L) → found L2 p = found L p) ∧
    (∀ x ∈ L, ∀ pre post : List PubKey, pre ++ post = L →
        found (pre ++ x :: post) p = found L p) ∧
    (∀ x : PubKey, 2 ≤ L.count x → found (L.erase x) p = found L p) ∧
    found L.dedup p = found L p := by
  refine ⟨?_, ?_, ?_, ?_, ?_, ?_⟩
  · rw [found_eq_true_iff_mem]
    simp
  · intro L2 hperm
    exact found_congr_mem L L2 p (fun x => hperm.symm.mem_iff)
  · intro L2 h
    exact found_congr_mem L L2 p h
  · intro x hx pre post hL
    apply found_congr_mem
    intro y
    subst hL
    simp only [List.mem_append, List.mem_cons] at hx ⊢
    constructor
    · rintro (h | h | h)
      · exact Or.inl h
      · subst h
        exact hx
      · exact Or.inr h
    · rintro (h | h)
      · exact Or.inl h
      · exact Or.inr (Or.inr h)
  · intro x hx
    apply found_congr_mem
    intro y
    constructor
    · exact fun h => List.mem_of_mem_erase h
    · intro hy
      by_cases hyx : y = x
      · subst hyx
        have hc : 0 < (L.erase y).count y := by
          rw [List.count_erase_self]
          omega
        exact List.count_pos_iff.mp hc
      · exact (List.mem_erase_of_ne hyx).mpr hy
  · apply found_congr_mem
    intro y
    exact List.mem_dedup

/-- C3, at a concrete list: `7` is found in `[3, 7, 5]`, in its permutation
`[5, 3, 7]` and in `[3, 7, 7, 5]`, and `4` in none of them. -/
theorem found_is_existence_check_witness :
    found [3, 7, 5] 7 = true ∧ found [5, 3, 7] 7 = found [3, 7, 5] 7 ∧
    found [3, 7, 7, 5] 7 = found [3, 7, 5] 7 ∧ found [3, 7, 5] 4 = false ∧
    found [5, 3, 7] 4 = found [3, 7, 5] 4 :=
  ⟨by decide,
   (found_is_existence_check [3, 7, 5] 7).2.1 [5, 3, 7] (by decide),
   (found_is_existence_check [3, 7, 5] 7).2.2.1 [3, 7, 7, 5]
     (by intro x; simp only [List.mem_cons]; tauto),
   by decide,
   (found_is_existence_check [3, 7, 5] 4).2.1 [5, 3, 7] (by decide)⟩

/-! ## `NewTransportListener`: the two ways the `select` ends -/

/-- C5: when the readiness signal wins the race, `NewTransportListener` returns
a nil error and a non-nil `TransportListener` whose `dmsgC` is the client built
in this call from the configuration (the one `go dmsgC.Serve(ctx)` was started
on), whose `tm` is the transport manager passed in and whose `tsNodes` is the
configured list `conf.Transport.TransportSetup`, unchanged. -/
theorem new_listener_when_ready (conf : V1) (tm : Manager) (readyAt doneAt : Option Nat)
    (tie : SelectCase) (h : selectFirst readyAt doneAt tie = some SelectCase.ready) :
    (NewTransportListener conf tm readyAt doneAt tie).ret =
      some (some { dmsgC := { pk := conf.PK, sk := conf.SK, discovery := conf.DmsgDiscovery,
                              conf := { MinSessions := conf.DmsgSessionsCount } },
                   log := "transport_setup",
                   tm := tm,
                   tsNodes := conf.TransportSetup }, none) ∧
    (NewTransportListener conf tm readyAt doneAt tie).events.head? =
      some (Event.goClientServe { pk := conf.PK, sk := conf.SK,
                                  discovery := conf.DmsgDiscovery,
                                  conf := { MinSessions := conf.DmsgSessionsCount } }) := by
  simp [NewTransportListener, h]

/-- C5, at a concrete call: readiness at moment 2, cancellation at moment 9. -/
theorem new_listener_when_ready_witness :
    (NewTransportListener
        { PK := 11, SK := 12, DmsgDiscovery := "http://disc", DmsgSessionsCount := 1,
          TransportSetup := [5, 3, 5] }
        { ref := 4 } (some 2) (some 9) SelectCase.done).ret =
      some (some { dmsgC := { pk := 11, sk := 12, discovery := "http://disc",
                              conf := { MinSessions := 1 } },
                   log := "transport_setup",
                   tm := { ref := 4 },
                   tsNodes := [5, 3, 5] }, none) :=
  (new_listener_when_ready
    { PK := 11, SK := 12, DmsgDiscovery := "http://disc", DmsgSessionsCount := 1,
      TransportSetup := [5, 3, 5] }
    { ref := 4 } (some 2) (some 9) SelectCase.done (by decide)).1

/-- C4, as stated, fails: with cancellation at moment 2 and readiness at moment
5 the call returns no listener and an error, but the error's message is not
the one the claim gives. -/
theorem cancel_first_message_differs :
    (NewTransportListener
        { PK := 11, SK := 12, DmsgDiscovery := "http://disc", DmsgSessionsCount := 1,
          TransportSetup := [5, 3] }
        { ref := 4 } (some 5) (some 2) SelectCase.ready).ret =
      some (none, some "failed to connect to dmsg network") ∧
    (NewTransportListener
        { PK := 11, SK := 12, DmsgDiscovery := "http://disc", DmsgSessionsCount := 1,
          TransportSetup := [5, 3] }
        { ref := 4 } (some 5) (some 2) SelectCase.ready).ret ≠
      some (none, some "could not join overlay network before cancellation") := by
  constructor
  · rfl
  · simp [NewTransportListener, selectFirst]

/-- C4, amended: when cancellation fires at moment `d` and the readiness signal
fires never or strictly later, `NewTransportListener` returns no listener (nil)
together with an error whose message is "failed to connect to dmsg network";
this holds whichever way the runtime would break a tie. -/
theorem cancel_first_returns_error (conf : V1) (tm : Manager) (readyAt : Option Nat) (d : Nat)
    (tie : SelectCase) (h : ∀ r, readyAt = some r → d < r) :
    (NewTransportListener conf tm readyAt (some d) tie).ret =
      some (none, some "failed to connect to dmsg network") := by
  cases readyAt with
  | none => simp [NewTransportListener, selectFirst]
  | some r =>
    have hr : d < r := h r rfl
    have h1 : ¬ r < d := by omega
    simp [NewTransportListener, selectFirst, h1, hr]

/-- C4, amended, at a concrete call: cancellation at moment 2, readiness at 5. -/
theorem cancel_first_returns_error_witness :
    (NewTransportListener
        { PK := 11, SK := 12, DmsgDiscovery := "http://disc", DmsgSessionsCount := 1,
          TransportSetup := [5, 3] }
        { ref := 4 } (some 5) (some 2) SelectCase.ready).ret =
      some (none, some "failed to connect to dmsg network") :=
  cancel_first_returns_error
    { PK := 11, SK := 12, DmsgDiscovery := "http://disc", DmsgSessionsCount := 1,
      TransportSetup := [5, 3] }
    { ref := 4 } (some 5) 2 SelectCase.ready
    (by intro r hr; cases hr; decide)

/-! ## One pass of the accept loop -/

/-- C2: in the pass of the accept loop that handles a connection `c` accepted
without error, `conn.Close` is called exactly once (on `c`) when the remote
identity of `c` is not in the trust list, and not at all when it is; the
connection handed to `go rpcS.ServeConn` is `c`, so a trusted connection is
handed over with no `Close` call made on it. -/
theorem close_called_once_iff_untrusted (ts : TransportListener) (reg : Option GoError)
    (sid : Nat) (c : Stream) :
    closed (loopBody ts reg sid { conn := some c, err := none }).events =
      (if c.remotePK ∈ ts.tsNodes then [] else [some c]) ∧
    (spawned (loopBody ts reg sid { conn := some c, err := none }).events).map Prod.snd =
      [some c] := by
  have hm := found_eq_true_iff_mem ts.tsNodes c.remotePK
  by_cases h : c.remotePK ∈ ts.tsNodes
  · have hf : found ts.tsNodes c.remotePK = true := hm.mpr h
    cases reg <;> simp [loopBody, hf, h, closed, spawned]
  · have hf : found ts.tsNodes c.remotePK = false := by
      cases hv : found ts.tsNodes c.remotePK
      · rfl
      · exact absurd (hm.mp hv) h
    cases reg <;> cases hce : c.closeErr <;>
      simp [loopBody, hf, h, hce, closed, spawned, closed_append, spawned_append]

/-- C1, evaluated at trust list `[1, 2]` and a connection from identity `3`:
the identity is not trusted and `conn.Close` is called, and the same pass still
creates a server, registers the gateway on it and runs
`go rpcS.ServeConn(conn)` on the connection it has just closed. -/
theorem untrusted_connection_is_served :
    found [1, 2] 3 = false ∧
    loopBody { dmsgC := { pk := 11, sk := 12, discovery := "http://disc",
                          conf := { MinSessions := 1 } },
               log := "transport_setup", tm := { ref := 4 }, tsNodes := [1, 2] }
        none 0 { conn := some { id := 0, remotePK := 3, closeErr := none }, err := none } =
      { events :=
          [Event.rawRemoteAddr (some { id := 0, remotePK := 3, closeErr := none }),
           Event.log Level.info "Closing connection" none,
           Event.connClose (some { id := 0, remotePK := 3, closeErr := none }),
           Event.newServer 0,
           Event.register 0 { tm := { ref := 4 } },
           Event.log Level.info "Serving rpc" none,
           Event.goServeConn { id := 0, handlers := [{ tm := { ref := 4 } }] }
             (some { id := 0, remotePK := 3, closeErr := none })],
        panicked := false } := by
  constructor <;> rfl

/-! ## Runs of `Serve` -/

/-- The model of `Serve` has no way to return: every run ends panicked or
waiting in `AcceptStream`. -/
theorem acceptLoop_not_returned (ts : TransportListener) (reg : Option GoError)
    (lis : Option Listener) :
    ∀ (script : List AcceptResult) (sid : Nat),
      (acceptLoop ts reg lis sid script).2 ≠ Outcome.returned := by
  intro script
  induction script with
  | nil =>
    intro sid
    cases lis <;> simp [acceptLoop]
  | cons r rest ih =>
    intro sid
    cases lis with
    | none => simp [acceptLoop]
    | some l =>
      simp only [acceptLoop]
      split
      · simp
      · exact ih (sid + 1)

/-- C6, evaluated: the listener is open, the first `AcceptStream` returns a
transient error and no connection, the second would return a connection from
the trusted identity `1`.  The pass logs the error, then calls
`conn.RawRemoteAddr()` on the nil connection and panics: the loop has ended
and the second connection is never accepted. -/
theorem transient_accept_error_panics :
    Serve { dmsgC := { pk := 11, sk := 12, discovery := "http://disc",
                       conf := { MinSessions := 1 } },
            log := "transport_setup", tm := { ref := 4 }, tsNodes := [1] }
        { dmsgPort := 47, listenRes := (some { port := 47 }, none),
          accepts := [{ conn := none, err := some "temporary failure" },
                      { conn := some { id := 0, remotePK := 1, closeErr := none },
                        err := none }],
          registerErr := none } =
      { events :=
          [Event.log Level.info "starting listener" none,
           Event.listen 47,
           Event.goCloseOnCancel (some { port := 47 }),
           Event.log Level.info "Accepting dmsg streams." none,
           Event.acceptStream (some { port := 47 }),
           Event.log Level.error "failed to accept" (some "temporary failure"),
           Event.rawRemoteAddr none],
        outcome := Outcome.panicked } := by
  rfl

/-- C7, evaluated: the listener has been closed, so `AcceptStream` returns the
"listener closed" error and no connection.  `Serve` does not return: it logs
the error as any other, calls `conn.RawRemoteAddr()` on the nil connection and
panics. -/
theorem listener_closed_does_not_return :
    Serve { dmsgC := { pk := 11, sk := 12, discovery := "http://disc",
                       conf := { MinSessions := 1 } },
            log := "transport_setup", tm := { ref := 4 }, tsNodes := [1] }
        { dmsgPort := 47, listenRes := (some { port := 47 }, none),
          accepts := [{ conn := none, err := some "listener closed" }],
          registerErr := none } =
      { events :=
          [Event.log Level.info "starting listener" none,
           Event.listen 47,
           Event.goCloseOnCancel (some { port := 47 }),
           Event.log Level.info "Accepting dmsg streams." none,
           Event.acceptStream (some { port := 47 }),
           Event.log Level.error "failed to accept" (some "listener closed"),
           Event.rawRemoteAddr none],
        outcome := Outcome.panicked } ∧
    (Serve { dmsgC := { pk := 11, sk := 12, discovery := "http://disc",
                        conf := { MinSessions := 1 } },
             log := "transport_setup", tm := { ref := 4 }, tsNodes := [1] }
        { dmsgPort := 47, listenRes := (some { port := 47 }, none),
          accepts := [{ conn := none, err := some "listener closed" }],
          registerErr := none }).outcome ≠ Outcome.returned := by
  constructor
  · rfl
  · exact acceptLoop_not_returned _ _ _ _ _

/-- C8, evaluated: `Listen` returns no listener and an error.  `Serve` logs
the error and goes on with the nil listener: it starts the close-on-cancel
goroutine on it and calls `AcceptStream` on it, which panics. -/
theorem listen_failure_goes_on_with_nil_listener :
    Serve { dmsgC := { pk := 11, sk := 12, discovery := "http://disc",
                       conf := { MinSessions := 1 } },
            log := "transport_setup", tm := { ref := 4 }, tsNodes := [1] }
        { dmsgPort := 47, listenRes := (none, some "port is occupied"),
          accepts := [{ conn := some { id := 0, remotePK := 1, closeErr := none },
                        err := none }],
          registerErr := none } =
      { events :=
          [Event.log Level.info "starting listener" none,
           Event.listen 47,
           Event.log Level.error "failed to listen" (some "port is occupied"),
           Event.goCloseOnCancel none,
           Event.log Level.info "Accepting dmsg streams." none,
           Event.acceptStream none],
        outcome := Outcome.panicked } := by
  rfl

/-- C10: for every `N` and every sequence of `N` connections accepted without
error whose identities are all in the trust list (repeats of one identity
allowed), `Serve` creates exactly `N` server instances, `0, ..., N-1`, all
distinct, one per connection; `Register` is called exactly once on each, with
a gateway wrapping the shared `ts.tm`; the `i`-th instance holds exactly that
one handler and is served on exactly the `i`-th connection; `conn.Close` is
called on no connection and the loop is still accepting.  The hypothesis `hr`
says that `rpcS.Register` returns nil, which is its result for the gateway type
this package registers. -/
theorem trusted_sequence_servers (ts : TransportListener) (env : Env) (l : Listener)
    (conns : List Stream)
    (hl : env.listenRes = (some l, none))
    (ha : env.accepts = conns.map (fun c => { conn := some c, err := none }))
    (hr : env.registerErr = none)
    (ht : ∀ c ∈ conns, c.remotePK ∈ ts.tsNodes) :
    serversCreated (Serve ts env).events = List.range conns.length ∧
    (serversCreated (Serve ts env).events).length = conns.length ∧
    (serversCreated (Serve ts env).events).Nodup ∧
    registrations (Serve ts env).events =
      (List.range conns.length).map (fun i => (i, { tm := ts.tm })) ∧
    spawned (Serve ts env).events =
      conns.enum.map (fun ic => ({ id := ic.1, handlers := [{ tm := ts.tm }] }, some ic.2)) ∧
    (∀ sc ∈ spawned (Serve ts env).events, sc.1.handlers.length = 1) ∧
    (spawned (Serve ts env).events).map Prod.snd = conns.map some ∧
    closed (Serve ts env).events = [] ∧
    (Serve ts env).outcome = Outcome.blocked := by
  have hf : ∀ c ∈ conns, found ts.tsNodes c.remotePK = true :=
    fun c hc => (found_eq_true_iff_mem _ _).mpr (ht c hc)
  obtain ⟨i1, i2, i3, i4, i5⟩ := acceptLoop_trusted ts none l conns 0 hf
  have e1 : serversCreated (Serve ts env).events = List.range conns.length := by
    simp only [Serve, hl, ha, hr]
    simp [serversCreated, i2, List.range_eq_range']
  have e2 : registrations (Serve ts env).events =
      (List.range conns.length).map (fun i => (i, { tm := ts.tm })) := by
    simp only [Serve, hl, ha, hr]
    simp [registrations, i3, List.range_eq_range']
  have e3 : spawned (Serve ts env).events =
      conns.enum.map (fun ic =>
        ({ id := ic.1, handlers := [{ tm := ts.tm }] }, some ic.2)) := by
    simp only [Serve, hl, ha, hr]
    simp [spawned, i1, List.enum]
  have e4 : closed (Serve ts env).events = [] := by
    simp only [Serve, hl, ha, hr]
    simp [closed, i4]
  have e5 : (Serve ts env).outcome = Outcome.blocked := by
    simp only [Serve, hl, ha, hr]
    exact i5
  refine ⟨e1, ?_, ?_, e2, e3, ?_, ?_, e4, e5⟩
  · rw [e1, List.length_range]
  · rw [e1]
    exact List.nodup_range _
  · intro sc hsc
    rw [e3, List.mem_map] at hsc
    obtain ⟨ic, _, rfl⟩ := hsc
    rfl
  · rw [e3, List.map_map]
    have hcomp : (Prod.snd ∘ fun ic : Nat × Stream =>
        (({ id := ic.1, handlers := [{ tm := ts.tm }] } : RpcServer), some ic.2)) =
        some ∘ Prod.snd := rfl
    rw [hcomp, ← List.map_map, List.enum_map_snd]

/-- C10, at trust list `[1]` and two connections in a row from identity `1`:
two servers, `0` on the first connection and `1` on the second, each with the
one gateway. -/
theorem trusted_sequence_servers_witness :
    serversCreated (Serve
        { dmsgC := { pk := 11, sk := 12, discovery := "http://disc",
                     conf := { MinSessions := 1 } },
          log := "transport_setup", tm := { ref := 4 }, tsNodes := [1] }
        { dmsgPort := 47, listenRes := (some { port := 47 }, none),
          accepts := [{ conn := some { id := 0, remotePK := 1, closeErr := none },
                        err := none },
                      { conn := some { id := 1, remotePK := 1, closeErr := none },
                        err := none }],
          registerErr := none }).events = [0, 1] ∧
    spawned (Serve
        { dmsgC := { pk := 11, sk := 12, discovery := "http://disc",
                     conf := { MinSessions := 1 } },
          log := "transport_setup", tm := { ref := 4 }, tsNodes := [1] }
        { dmsgPort := 47, listenRes := (some { port := 47 }, none),
          accepts := [{ conn := some { id := 0, remotePK := 1, closeErr := none },
                        err := none },
                      { conn := some { id := 1, remotePK := 1, closeErr := none },
                        err := none }],
          registerErr := none }).events =
      [({ id := 0, handlers := [{ tm := { ref := 4 } }] },
        some { id := 0, remotePK := 1, closeErr := none }),
       ({ id := 1, handlers := [{ tm := { ref := 4 } }] },
        some { id := 1, remotePK := 1, closeErr := none })] :=
  ⟨(trusted_sequence_servers
      { dmsgC := { pk := 11, sk := 12, discovery := "http://disc",
                   conf := { MinSessions := 1 } },
        log := "transport_setup", tm := { ref := 4 }, tsNodes := [1] }
      { dmsgPort := 47, listenRes := (some { port := 47 }, none),
        accepts := [{ conn := some { id := 0, remotePK := 1, closeErr := none },
                      err := none },
                    { conn := some { id := 1, remotePK := 1, closeErr := none },
                      err := none }],
        registerErr := none }
      { port := 47 }
      [{ id := 0, remotePK := 1, closeErr := none },
       { id := 1, remotePK := 1, closeErr := none }]
      rfl rfl rfl (by decide)).1,
   (trusted_sequence_servers
      { dmsgC := { pk := 11, sk := 12, discovery := "http://disc",
                   conf := { MinSessions := 1 } },
        log := "transport_setup", tm := { ref := 4 }, tsNodes := [1] }
      { dmsgPort := 47, listenRes := (some { port := 47 }, none),
        accepts := [{ conn := some { id := 0, remotePK := 1, closeErr := none },
                      err := none },
                    { conn := some { id := 1, remotePK := 1, closeErr := none },
                      err := none }],
        registerErr := none }
      { port := 47 }
      [{ id := 0, remotePK := 1, closeErr := none },
       { id := 1, remotePK := 1, closeErr := none }]
      rfl rfl rfl (by decide)).2.2.2.2.1⟩

/-! ## Further facts about the loop -/

/-- Every pass that gets a connection `c` from `AcceptStream` creates exactly
one server and runs `go rpcS.ServeConn` exactly once, on `c`, whatever the
trust list, the accept error and the `Register` result are. -/
theorem every_accepted_connection_is_served (ts : TransportListener) (reg : Option GoError)
    (sid : Nat) (c : Stream) (err : Option GoError) :
    serversCreated (loopBody ts reg sid { conn := some c, err := err }).events = [sid] ∧
    (spawned (loopBody ts reg sid { conn := some c, err := err }).events).map Prod.snd =
      [some c] ∧
    (loopBody ts reg sid { conn := some c, err := err }).panicked = false := by
  cases reg <;> cases err <;> cases hce : c.closeErr <;>
    cases hf : found ts.tsNodes c.remotePK <;>
    simp [loopBody, hf, hce, spawned, serversCreated, spawned_append, serversCreated_append]

/-- Every pass in which `AcceptStream` returns an error and no connection ends
the loop by a panic at `conn.RawRemoteAddr()`, after the error was logged; the
accept results that would follow are never asked for. -/
theorem accept_without_connection_panics (ts : TransportListener) (reg : Option GoError)
    (l : Listener) (sid : Nat) (e : GoError) (rest : List AcceptResult) :
    acceptLoop ts reg (some l) sid ({ conn := none, err := some e } :: rest) =
      ([Event.acceptStream (some l),
        Event.log Level.error "failed to accept" (some e),
        Event.rawRemoteAddr none], Outcome.panicked) := by
  simp [acceptLoop, loopBody]

end Setup
